import Mathlib

/-!
Shallow embedding of the AyurSutra appointment-scheduling and wallet logic
(src/patients.js appointment routes, wallet routes) together with theorems
checking the specification's claims about it.

Conventions of the embedding:
* Mongo object ids are `Nat`.
* JavaScript `Date` timestamps are `Int` milliseconds since the epoch.
* Wall-clock times are kept as the `"HH:MM"` strings the source stores.
* Monetary amounts (JS floats validated by `isFloat`) are `ℚ`.
* The Mongo store is a `List Appointment`; `findOne`/`find` with a filter
  become `List.any` / `List.filter` with the same predicate.
-/

namespace AyurSutra

/-- Appointment status enum of the source
(`['scheduled','confirmed','in-progress','completed','cancelled','no-show']`,
src/patients.js line 694). -/
inductive AppStatus
  | scheduled
  | confirmed
  | inProgress
  | completed
  | cancelled
  | noShow
deriving DecidableEq, Repr

/-- Membership in `status: { $in: ['scheduled', 'confirmed'] }`, the filter used
by both the booking-time conflict query (src/patients.js line 418) and the
availability query (line 794). -/
def AppStatus.isActive : AppStatus → Bool
  | .scheduled => true
  | .confirmed => true
  | _ => false

/-- Reminder channel (`type: 'email' | 'sms'`, src/patients.js lines 443, 447). -/
inductive ReminderType
  | email
  | sms
deriving DecidableEq, Repr

/-- One entry of the appointment's `reminders` array
(src/patients.js lines 441-450). -/
structure Reminder where
  type : ReminderType
  scheduledTime : Int
deriving DecidableEq, Repr

/-- The Appointment document as read and written by the routes in
src/patients.js. -/
structure Appointment where
  patient : Nat
  practitioner : Nat
  therapyType : String
  scheduledDate : Int
  startTime : String
  endTime : String
  duration : Nat
  cost : ℚ
  notes : String
  preSessionInstructions : String
  postSessionInstructions : String
  status : AppStatus
  cancellationReason : Option String
  cancelledBy : Option String
  cancelledAt : Option Int
  reminders : List Reminder
deriving DecidableEq, Repr

def msPerHour : Int := 60 * 60 * 1000

def msPerDay : Int := 24 * msPerHour

/-- `new Date(selectedDate.setHours(0, 0, 0, 0))` (src/patients.js line 784):
midnight of the day containing `t`. -/
def startOfDay (t : Int) : Int := t - t % msPerDay

/-- `new Date(selectedDate.setHours(23, 59, 59, 999))` (src/patients.js
line 785): the last millisecond of the day containing `t`. -/
def endOfDay (t : Int) : Int := startOfDay t + msPerDay - 1

/-- The two default reminders attached at creation: email 24 hours before and
sms 2 hours before `scheduledDate` (src/patients.js lines 441-450). -/
def defaultReminders (scheduledDate : Int) : List Reminder :=
  [⟨ReminderType.email, scheduledDate - 24 * msPerHour⟩,
   ⟨ReminderType.sms, scheduledDate - 2 * msPerHour⟩]

/-- The booking-time conflict query (src/patients.js lines 414-419):
`Appointment.findOne({practitioner, scheduledDate, startTime, status ∈
{scheduled, confirmed}})` found a document. Matching is on the exact
`startTime` string. -/
def hasConflict (appts : List Appointment) (practitionerId : Nat)
    (scheduledDate : Int) (startTime : String) : Bool :=
  appts.any fun a =>
    a.practitioner == practitionerId &&
    a.scheduledDate == scheduledDate &&
    a.startTime == startTime &&
    a.status.isActive

/-- Split a character list at `':'`, as `startTime.split(':')` does
(src/patients.js lines 813, 817). -/
def splitCols : List Char → List Char → List (List Char)
  | [], acc => [acc.reverse]
  | c :: rest, acc =>
    if c = ':' then acc.reverse :: splitCols rest [] else splitCols rest (c :: acc)

/-- Value of a digit string, the defined case of JavaScript `parseInt`
(src/patients.js lines 814, 818). -/
def digitsVal (cs : List Char) : Nat :=
  cs.foldl (fun n c => n * 10 + (c.toNat - 48)) 0

/-- `const [h, m] = s.split(':')` followed by
`parseInt(h) * 60 + parseInt(m)`: an "HH:MM" string as minutes after
midnight, as the availability loop computes appointment bounds with
`setHours(parseInt(h), parseInt(m), 0, 0)` (src/patients.js lines 812-818). -/
def parseMinutes (s : String) : Nat :=
  match splitCols s.data [] with
  | h :: m :: _ => digitsVal h * 60 + digitsVal m
  | _ => 0

/-- `hour.toString().padStart(2, '0')` (src/patients.js line 805). -/
def pad2 (n : Nat) : String :=
  if n < 10 then "0" ++ toString n else toString n

/-- The `timeString` template literal
`` `${hour.padStart(2,'0')}:${minutes.padStart(2,'0')}` `` for a slot start
given in minutes after midnight (src/patients.js line 805). -/
def timeString (m : Nat) : String := pad2 (m / 60) ++ ":" ++ pad2 (m % 60)

/-- `const startHour = 10` (src/patients.js line 799). -/
def startHour : Nat := 10

/-- `const endHour = 18` (src/patients.js line 800). -/
def endHour : Nat := 18

/-- `const slotDuration = 30` minutes (src/patients.js line 801). -/
def slotDuration : Nat := 30

/-- Candidate slot starts in minutes after midnight, produced by the nested
loop `for (hour = startHour; hour < endHour; hour++) for (minutes = 0;
minutes < 60; minutes += slotDuration)` (src/patients.js lines 803-804). -/
def gridTimes : List Nat :=
  (List.range (endHour - startHour)).flatMap fun i =>
    [(startHour + i) * 60, (startHour + i) * 60 + slotDuration]

/-- The availability query (src/patients.js lines 788-795): appointments of
this practitioner whose `scheduledDate` falls inside the selected day and
whose status is `scheduled` or `confirmed`. -/
def activeFor (appts : List Appointment) (practitionerId : Nat)
    (date : Int) : List Appointment :=
  appts.filter fun a =>
    a.practitioner == practitionerId &&
    decide (startOfDay date ≤ a.scheduledDate) &&
    decide (a.scheduledDate ≤ endOfDay date) &&
    a.status.isActive

/-- The `hasConflict` test of the slot loop (src/patients.js lines 811-821):
some fetched appointment satisfies `slotStart < apptEnd && slotEnd >
apptStart`, all four instants lying on the selected day, so compared here as
minutes after midnight. -/
def slotHasConflict (existing : List Appointment) (slotStart : Nat) : Bool :=
  existing.any fun a =>
    decide (slotStart < parseMinutes a.endTime) &&
    decide (slotStart + slotDuration > parseMinutes a.startTime)

/-- One element pushed onto `availableSlots` (src/patients.js lines 824-828);
`date` keeps the day (midnight timestamp) whose ISO date string the source
emits. -/
structure Slot where
  time : String
  date : Int
  available : Bool
deriving DecidableEq, Repr

/-- The availability computation (src/patients.js lines 788-831): for each
candidate grid slot, push `{time, date, available: true}` exactly when the
slot conflicts with no fetched appointment; conflicting slots are not
pushed. -/
def computeAvailability (appts : List Appointment) (practitionerId : Nat)
    (date : Int) : List Slot :=
  let existing := activeFor appts practitionerId date
  gridTimes.filterMap fun t =>
    if slotHasConflict existing t then none
    else some ⟨timeString t, startOfDay date, true⟩

/-- Request body of `POST /appointments` after validation
(src/patients.js lines 381-393). -/
structure CreateInput where
  patientId : Nat
  practitionerId : Nat
  therapyType : String
  scheduledDate : Int
  startTime : String
  endTime : String
  duration : Nat
  cost : ℚ
  notes : String
  preSessionInstructions : String
  postSessionInstructions : String
deriving DecidableEq, Repr

/-- The document built by `new Appointment({...})` (src/patients.js lines
429-451). The constructor sets no status and no cancellation fields; the
Appointment schema itself is not among the source files, so those defaults
are modelled from the spec: a newly persisted appointment has status
`scheduled` and its cancellation metadata unset. -/
def newAppointment (inp : CreateInput) : Appointment :=
  { patient := inp.patientId
    practitioner := inp.practitionerId
    therapyType := inp.therapyType
    scheduledDate := inp.scheduledDate
    startTime := inp.startTime
    endTime := inp.endTime
    duration := inp.duration
    cost := inp.cost
    notes := inp.notes
    preSessionInstructions := inp.preSessionInstructions
    postSessionInstructions := inp.postSessionInstructions
    status := AppStatus.scheduled
    cancellationReason := none
    cancelledBy := none
    cancelledAt := none
    reminders := defaultReminders inp.scheduledDate }

/-- Error responses of the `POST /appointments` handler: 404 patient, 404
practitioner, 400 `'Time slot is already booked'`, and the outer-catch 500
(src/patients.js lines 397-426, 493-500). -/
inductive CreateError
  | patientNotFound
  | practitionerNotFound
  | slotConflict
  | serverError
deriving DecidableEq, Repr

/-- The `POST /appointments` handler (src/patients.js lines 370-501) on a
validated body. Returns the appointment store after the request and the
response. `notifSaveOk` models whether `notification.save()` (line 473)
succeeds: it is not wrapped in a `try`, so its failure falls through to the
outer catch and yields the 500 response after the appointment was already
saved. `sendOk` models whether `sendAppointmentConfirmation` (line 477)
succeeds; that call sits in its own `try/catch` whose handler only logs, so
the result does not depend on it. -/
def createAppointment (store : List Appointment) (patients practitioners : List Nat)
    (inp : CreateInput) (notifSaveOk _sendOk : Bool) :
    List Appointment × Except CreateError Appointment :=
  if patients.contains inp.patientId = false then
    (store, Except.error CreateError.patientNotFound)
  else if practitioners.contains inp.practitionerId = false then
    (store, Except.error CreateError.practitionerNotFound)
  else if hasConflict store inp.practitionerId inp.scheduledDate inp.startTime then
    (store, Except.error CreateError.slotConflict)
  else
    let appt := newAppointment inp
    let store2 := store ++ [appt]
    if notifSaveOk = false then
      (store2, Except.error CreateError.serverError)
    else
      (store2, Except.ok appt)

/-- The fields `PUT /appointments/:id` may set, each present in the request
body or absent (`allowedFields`, src/patients.js lines 662-665). -/
structure UpdateFields where
  scheduledDate : Option Int
  startTime : Option String
  endTime : Option String
  duration : Option Nat
  notes : Option String
  preSessionInstructions : Option String
  postSessionInstructions : Option String
deriving DecidableEq, Repr

/-- The `PUT /appointments/:id` mutation (src/patients.js lines 667-673):
each allowed field that is present in the body overwrites the document
field; everything else is untouched. No conflict check is run. -/
def updateAppointment (a : Appointment) (f : UpdateFields) : Appointment :=
  { a with
    scheduledDate := f.scheduledDate.getD a.scheduledDate
    startTime := f.startTime.getD a.startTime
    endTime := f.endTime.getD a.endTime
    duration := f.duration.getD a.duration
    notes := f.notes.getD a.notes
    preSessionInstructions := f.preSessionInstructions.getD a.preSessionInstructions
    postSessionInstructions := f.postSessionInstructions.getD a.postSessionInstructions }

/-- The `PUT /appointments/:id/status` mutation (src/patients.js lines
717-722): set the status unconditionally; if a cancellation reason is given
(a nonempty string — `if (cancellationReason)` is JS truthiness and the
validator rejects empty ones) also stamp reason, the caller's role and the
current time, whatever the new status is. -/
def updateStatus (a : Appointment) (s : AppStatus) (reason : Option String)
    (role : String) (now : Int) : Appointment :=
  let b := { a with status := s }
  match reason with
  | some r =>
    if r = "" then b
    else { b with cancellationReason := some r, cancelledBy := some role,
                  cancelledAt := some now }
  | none => b

/-- The `DELETE /appointments/:id` mutation (src/patients.js lines 871-874):
always sets status to cancelled and restamps `cancelledBy`/`cancelledAt`
with the current caller and time; `cancellationReason` is not touched. -/
def cancelAppointment (a : Appointment) (role : String) (now : Int) : Appointment :=
  { a with status := AppStatus.cancelled
           cancelledBy := some role
           cancelledAt := some now }

/-- The mutating appointment operations reachable after creation. -/
inductive AppOp
  | updStatus (s : AppStatus) (reason : Option String) (role : String) (now : Int)
  | upd (f : UpdateFields)
  | cancel (role : String) (now : Int)

/-- Apply one operation to the stored document. -/
def applyOp (a : Appointment) : AppOp → Appointment
  | .updStatus s reason role now => updateStatus a s reason role now
  | .upd f => updateAppointment a f
  | .cancel role now => cancelAppointment a role now

/-- Run a sequence of operations on the stored document. -/
def runOps (a : Appointment) (ops : List AppOp) : Appointment :=
  ops.foldl applyOp a

/-- Responses of `POST /wallet/deduct` (src/unnamed/part_002 lines 98-151):
400 validation errors, 400 `'Insufficient wallet balance'`, or success with
the new balance. -/
inductive DeductResult
  | validationError
  | insufficient
  | ok (newBalance : ℚ)
deriving DecidableEq, Repr

/-- The `POST /wallet/deduct` handler (src/unnamed/part_002 lines 98-151) for
an existing user. The validators demand `amount` a number ≥ 1 and a nonempty
`reason`; then `currentBalance = walletBalance || 0`, rejection when
`currentBalance < amount`, otherwise `walletBalance = currentBalance -
amount`. Returns the stored balance after the request and the response. -/
def deduct (walletBalance : Option ℚ) (amount : ℚ) (reason : String) :
    Option ℚ × DeductResult :=
  if 1 ≤ amount ∧ reason ≠ "" then
    let currentBalance := walletBalance.getD 0
    if currentBalance < amount then
      (walletBalance, DeductResult.insufficient)
    else
      (some (currentBalance - amount), DeductResult.ok (currentBalance - amount))
  else
    (walletBalance, DeductResult.validationError)

/-! Concrete data used by counterexamples and witnesses. -/

/-- 2024-06-01T00:00:00Z in epoch milliseconds. -/
def dateA : Int := 1717200000000

/-- An active appointment of practitioner 1 on `dateA`, 10:00-10:30. -/
def apptA : Appointment :=
  { patient := 5, practitioner := 1, therapyType := "consultation"
    scheduledDate := dateA, startTime := "10:00", endTime := "10:30"
    duration := 30, cost := 100, notes := ""
    preSessionInstructions := "", postSessionInstructions := ""
    status := AppStatus.scheduled
    cancellationReason := none, cancelledBy := none, cancelledAt := none
    reminders := [] }

/-- An active appointment of practitioner 1 on `dateA`, 11:00-11:30. -/
def apptB : Appointment :=
  { apptA with startTime := "11:00", endTime := "11:30" }

/-- A booking request for practitioner 1 on `dateA` at 10:00-10:30. -/
def inpA : CreateInput :=
  { patientId := 5, practitionerId := 1, therapyType := "consultation"
    scheduledDate := dateA, startTime := "10:00", endTime := "10:30"
    duration := 30, cost := 100, notes := ""
    preSessionInstructions := "", postSessionInstructions := "" }

/-! Helper lemmas. -/

lemma isActive_iff (s : AppStatus) :
    s.isActive = true ↔ s = AppStatus.scheduled ∨ s = AppStatus.confirmed := by
  cases s <;> simp [AppStatus.isActive]

lemma hasConflict_iff (appts : List Appointment) (p : Nat) (d : Int) (st : String) :
    hasConflict appts p d st = true ↔
      ∃ a ∈ appts, a.practitioner = p ∧ a.scheduledDate = d ∧ a.startTime = st ∧
        (a.status = AppStatus.scheduled ∨ a.status = AppStatus.confirmed) := by
  simp [hasConflict, List.any_eq_true, Bool.and_eq_true, isActive_iff, and_assoc]

lemma mem_activeFor_iff (appts : List Appointment) (pid : Nat) (date : Int)
    (a : Appointment) :
    a ∈ activeFor appts pid date ↔
      a ∈ appts ∧ a.practitioner = pid ∧ startOfDay date ≤ a.scheduledDate ∧
        a.scheduledDate ≤ endOfDay date ∧
        (a.status = AppStatus.scheduled ∨ a.status = AppStatus.confirmed) := by
  simp [activeFor, List.mem_filter, isActive_iff, and_assoc]

lemma slotHasConflict_eq_false_iff (existing : List Appointment) (t : Nat) :
    slotHasConflict existing t = false ↔
      ∀ a ∈ existing,
        ¬(t < parseMinutes a.endTime ∧ t + slotDuration > parseMinutes a.startTime) := by
  simp [slotHasConflict, List.any_eq_false, not_and]

lemma filterMap_if_none {α : Type} (l : List Nat) (p : Nat → Bool) (f : Nat → α) :
    (l.filterMap fun t => if p t then none else some (f t)) =
      (l.filter fun t => !p t).map f := by
  induction l with
  | nil => rfl
  | cons x xs ih =>
    by_cases hx : p x = true <;>
      simp [List.filterMap_cons, List.filter_cons, hx, ih]

lemma timeString_inj_on_grid :
    ∀ t ∈ gridTimes, ∀ u ∈ gridTimes, timeString t = timeString u → t = u := by
  decide

/-! Claim theorems. -/

/-- C1: on a validated booking whose patient and practitioner exist, the
create handler answers `'Time slot is already booked'` exactly when the store
holds an appointment for the same practitioner, the same `scheduledDate`,
with the identical `startTime` string, in status scheduled or confirmed; in
particular a booking whose interval merely overlaps an active appointment
with a different `startTime` string is not rejected by this guard. -/
theorem create_slotConflict_iff_exact_start
    (store : List Appointment) (patients practitioners : List Nat)
    (inp : CreateInput) (notifSaveOk sendOk : Bool)
    (hp : patients.contains inp.patientId = true)
    (hq : practitioners.contains inp.practitionerId = true) :
    ((createAppointment store patients practitioners inp notifSaveOk sendOk).2 =
        Except.error CreateError.slotConflict ↔
      ∃ a ∈ store, a.practitioner = inp.practitionerId ∧
        a.scheduledDate = inp.scheduledDate ∧ a.startTime = inp.startTime ∧
        (a.status = AppStatus.scheduled ∨ a.status = AppStatus.confirmed)) ∧
    ((∀ a ∈ store, a.startTime ≠ inp.startTime) →
      (createAppointment store patients practitioners inp notifSaveOk sendOk).2 ≠
        Except.error CreateError.slotConflict) := by
  have hiff := hasConflict_iff store inp.practitionerId inp.scheduledDate inp.startTime
  have key : (createAppointment store patients practitioners inp notifSaveOk sendOk).2 =
      Except.error CreateError.slotConflict ↔
      hasConflict store inp.practitionerId inp.scheduledDate inp.startTime = true := by
    simp only [createAppointment, hp, hq, Bool.true_eq_false, if_false]
    cases hc : hasConflict store inp.practitionerId inp.scheduledDate inp.startTime
    · simp only [Bool.false_eq_true, if_false]
      cases notifSaveOk <;> simp
    · simp
  refine ⟨key.trans hiff, fun hne h => ?_⟩
  obtain ⟨a, ha, _, _, h3, _⟩ := hiff.mp (key.mp h)
  exact hne a ha h3

/-- C1 witness: with an active 10:00 appointment of practitioner 1 on
`dateA` in the store, the guarded create of `inpA` (same practitioner, date
and start) answers the slot conflict. -/
theorem create_slotConflict_iff_exact_start_witness :
    (createAppointment [apptA] [5] [1] inpA true true).2 =
      Except.error CreateError.slotConflict :=
  (create_slotConflict_iff_exact_start [apptA] [5] [1] inpA true true
      (by decide) (by decide)).1.mpr
    ⟨apptA, by simp, by decide, by decide, by decide, Or.inl (by decide)⟩

/-- C2: a candidate grid slot is returned as available exactly when its
half-open 30-minute interval overlaps no appointment of this practitioner on
this day whose status is scheduled or confirmed, overlap being the true
interval test `slotStart < apptEnd ∧ slotEnd > apptStart`. -/
theorem availability_available_iff_no_overlap
    (appts : List Appointment) (pid : Nat) (date : Int) (t : Nat)
    (ht : t ∈ gridTimes) :
    (⟨timeString t, startOfDay date, true⟩ : Slot) ∈ computeAvailability appts pid date ↔
      ∀ a ∈ appts,
        (a.practitioner = pid ∧ startOfDay date ≤ a.scheduledDate ∧
          a.scheduledDate ≤ endOfDay date ∧
          (a.status = AppStatus.scheduled ∨ a.status = AppStatus.confirmed)) →
        ¬(t < parseMinutes a.endTime ∧
          t + slotDuration > parseMinutes a.startTime) := by
  constructor
  · intro hm
    simp only [computeAvailability, List.mem_filterMap] at hm
    obtain ⟨u, hu, hfu⟩ := hm
    by_cases hc : slotHasConflict (activeFor appts pid date) u = true
    · rw [if_pos hc] at hfu
      exact absurd hfu (by simp)
    · rw [if_neg hc] at hfu
      have htu : u = t :=
        timeString_inj_on_grid u hu t ht (congrArg Slot.time (Option.some.inj hfu))
      subst htu
      have hfalse : slotHasConflict (activeFor appts pid date) u = false := by
        simpa using hc
      intro a ha hcond
      exact (slotHasConflict_eq_false_iff _ _).mp hfalse a
        ((mem_activeFor_iff appts pid date a).mpr
          ⟨ha, hcond.1, hcond.2.1, hcond.2.2.1, hcond.2.2.2⟩)
  · intro hall
    have hfalse : slotHasConflict (activeFor appts pid date) t = false := by
      rw [slotHasConflict_eq_false_iff]
      intro a ha
      rw [mem_activeFor_iff] at ha
      exact hall a ha.1 ⟨ha.2.1, ha.2.2.1, ha.2.2.2.1, ha.2.2.2.2⟩
    simp only [computeAvailability, List.mem_filterMap]
    exact ⟨t, ht, by rw [if_neg (by simp [hfalse])]⟩

/-- C2 witness: the 10:00 slot is in the grid and is not returned as
available when practitioner 1 has the active 10:00-10:30 appointment
`apptA` on `dateA`. -/
theorem availability_available_iff_no_overlap_witness :
    600 ∈ gridTimes ∧
    (⟨timeString 600, startOfDay dateA, true⟩ : Slot) ∉
      computeAvailability [apptA] 1 dateA :=
  ⟨by decide, fun hm =>
    (availability_available_iff_no_overlap [apptA] 1 dateA 600 (by decide)).mp hm
      apptA (by decide)
      ⟨by decide, by decide, by decide, Or.inl (by decide)⟩
      ⟨by decide, by decide⟩⟩

/-- C6 counterexample: with the active 10:00-10:30 appointment `apptA`
booked, the availability computation returns only 15 entries and none of
them carries the candidate time 10:00 — conflicting candidate slots are
omitted from the output, not included tagged unavailable, so the claim that
each of the 16 candidate slots is present fails on this input. -/
theorem availability_omits_conflicting_slot :
    gridTimes.length = 16 ∧
    (computeAvailability [apptA] 1 dateA).length = 15 ∧
    ∀ s ∈ computeAvailability [apptA] 1 dateA, s.time ≠ "10:00" := by
  decide

/-- C6 amended: the availability computation returns, in chronological
order, exactly those of the 16 candidate grid slots (10:00 to 18:00 in
30-minute steps) that conflict with no fetched active appointment, each
tagged available; conflicting candidates are omitted rather than returned
tagged unavailable. -/
theorem availability_filter_of_grid (appts : List Appointment) (pid : Nat)
    (date : Int) :
    computeAvailability appts pid date =
      ((gridTimes.filter fun t => !slotHasConflict (activeFor appts pid date) t).map
        fun t => ⟨timeString t, startOfDay date, true⟩) ∧
    gridTimes = [600, 630, 660, 690, 720, 750, 780, 810,
      840, 870, 900, 930, 960, 990, 1020, 1050] ∧
    List.Sorted (· < ·) gridTimes ∧
    ∀ s ∈ computeAvailability appts pid date, s.available = true := by
  refine ⟨?_, by decide, by decide, fun s hs => ?_⟩
  · simp only [computeAvailability]
    exact filterMap_if_none gridTimes _ _
  simp only [computeAvailability, List.mem_filterMap] at hs
  obtain ⟨u, hu, hfu⟩ := hs
  by_cases hc : slotHasConflict (activeFor appts pid date) u = true
  · rw [if_pos hc] at hfu
    exact absurd hfu (by simp)
  · rw [if_neg hc] at hfu
    rw [← Option.some.inj hfu]

/-- C3: the general update applies exactly the seven allowed fields, taking
the body's value when present and keeping the old one otherwise; every other
field — status, cost, patient, practitioner, therapy type, cancellation
metadata, reminders — is unchanged; and no conflict guard runs: rescheduling
`apptB` onto 10:00-10:30 yields an active appointment that collides (same
practitioner, date and exact start) with the active `apptA`, a state the
booking-time guard itself would have rejected. -/
theorem update_frame_and_no_guard (a : Appointment) (f : UpdateFields) :
    ((updateAppointment a f).status = a.status ∧
     (updateAppointment a f).cost = a.cost ∧
     (updateAppointment a f).patient = a.patient ∧
     (updateAppointment a f).practitioner = a.practitioner ∧
     (updateAppointment a f).therapyType = a.therapyType ∧
     (updateAppointment a f).cancellationReason = a.cancellationReason ∧
     (updateAppointment a f).cancelledBy = a.cancelledBy ∧
     (updateAppointment a f).cancelledAt = a.cancelledAt ∧
     (updateAppointment a f).reminders = a.reminders) ∧
    ((updateAppointment a f).scheduledDate = f.scheduledDate.getD a.scheduledDate ∧
     (updateAppointment a f).startTime = f.startTime.getD a.startTime ∧
     (updateAppointment a f).endTime = f.endTime.getD a.endTime ∧
     (updateAppointment a f).duration = f.duration.getD a.duration ∧
     (updateAppointment a f).notes = f.notes.getD a.notes ∧
     (updateAppointment a f).preSessionInstructions =
       f.preSessionInstructions.getD a.preSessionInstructions ∧
     (updateAppointment a f).postSessionInstructions =
       f.postSessionInstructions.getD a.postSessionInstructions) ∧
    ((updateAppointment apptB
        ⟨none, some "10:00", some "10:30", none, none, none, none⟩).status.isActive = true ∧
     apptA.status.isActive = true ∧
     (updateAppointment apptB
        ⟨none, some "10:00", some "10:30", none, none, none, none⟩).practitioner =
       apptA.practitioner ∧
     (updateAppointment apptB
        ⟨none, some "10:00", some "10:30", none, none, none, none⟩).scheduledDate =
       apptA.scheduledDate ∧
     hasConflict [apptA]
       (updateAppointment apptB
          ⟨none, some "10:00", some "10:30", none, none, none, none⟩).practitioner
       (updateAppointment apptB
          ⟨none, some "10:00", some "10:30", none, none, none, none⟩).scheduledDate
       (updateAppointment apptB
          ⟨none, some "10:00", some "10:30", none, none, none, none⟩).startTime = true) :=
  ⟨⟨rfl, rfl, rfl, rfl, rfl, rfl, rfl, rfl, rfl⟩,
   ⟨rfl, rfl, rfl, rfl, rfl, rfl, rfl⟩, by decide⟩

/-- C5: the status route is guardless: for every appointment and every status
of the enum it succeeds and sets exactly that status (with no reason the
record changes in no other way), and whenever a nonempty cancellation reason
is provided it stamps `cancellationReason`, `cancelledBy` (the caller's
role) and `cancelledAt`, whatever the new status. -/
theorem updateStatus_permissive (a : Appointment) (s : AppStatus)
    (r role : String) (now : Int) (hr : r ≠ "") :
    ((updateStatus a s none role now).status = s ∧
     updateStatus a s none role now = { a with status := s }) ∧
    ((updateStatus a s (some r) role now).status = s ∧
     (updateStatus a s (some r) role now).cancellationReason = some r ∧
     (updateStatus a s (some r) role now).cancelledBy = some role ∧
     (updateStatus a s (some r) role now).cancelledAt = some now) := by
  refine ⟨⟨rfl, rfl⟩, ?_⟩
  simp [updateStatus, hr]

/-- C5 witness: a cancelled (terminal) appointment is moved back to
`scheduled` while the provided reason stamps the metadata. -/
theorem updateStatus_permissive_witness :
    ("patient requested" ≠ "") ∧
    ((updateStatus (cancelAppointment (newAppointment inpA) "patient" 100)
        AppStatus.scheduled (some "patient requested") "admin" 200).status =
          AppStatus.scheduled ∧
     (updateStatus (cancelAppointment (newAppointment inpA) "patient" 100)
        AppStatus.scheduled (some "patient requested") "admin" 200).cancellationReason =
          some "patient requested" ∧
     (updateStatus (cancelAppointment (newAppointment inpA) "patient" 100)
        AppStatus.scheduled (some "patient requested") "admin" 200).cancelledBy =
          some "admin" ∧
     (updateStatus (cancelAppointment (newAppointment inpA) "patient" 100)
        AppStatus.scheduled (some "patient requested") "admin" 200).cancelledAt =
          some 200) :=
  ⟨by decide,
   (updateStatus_permissive (cancelAppointment (newAppointment inpA) "patient" 100)
      AppStatus.scheduled "patient requested" "admin" 200 (by decide)).2⟩

/-- C7: every successfully created appointment carries exactly the
two-element reminder list email at `scheduledDate − 24h` then sms at
`scheduledDate − 2h`, and the derivation is a pure function of
`scheduledDate`: computing it twice gives identical output. -/
theorem create_reminders_default
    (store : List Appointment) (patients practitioners : List Nat)
    (inp : CreateInput) (notifSaveOk sendOk : Bool) (appt : Appointment)
    (h : (createAppointment store patients practitioners inp notifSaveOk sendOk).2 =
      Except.ok appt) :
    appt.reminders =
      [⟨ReminderType.email, inp.scheduledDate - 24 * msPerHour⟩,
       ⟨ReminderType.sms, inp.scheduledDate - 2 * msPerHour⟩] ∧
    ∀ d : Int, defaultReminders d = defaultReminders d := by
  refine ⟨?_, fun d => rfl⟩
  by_cases h1 : inp.patientId ∈ patients
  · by_cases h2 : inp.practitionerId ∈ practitioners
    · by_cases h3 : hasConflict store inp.practitionerId inp.scheduledDate inp.startTime = true
      · simp [createAppointment, h1, h2, h3] at h
      · by_cases h4 : notifSaveOk = false
        · simp [createAppointment, h1, h2, h3, h4] at h
        · simp [createAppointment, h1, h2, h3, h4] at h
          subst h
          rfl
    · simp [createAppointment, h1, h2] at h
  · simp [createAppointment, h1] at h

/-- C7 witness: the concrete booking `inpA` succeeds and its stored reminder
list is the email/sms pair at 24h and 2h before `dateA`. -/
theorem create_reminders_default_witness :
    (createAppointment [] [5] [1] inpA true true).2 =
      Except.ok (newAppointment inpA) ∧
    (newAppointment inpA).reminders =
      [⟨ReminderType.email, inpA.scheduledDate - 24 * msPerHour⟩,
       ⟨ReminderType.sms, inpA.scheduledDate - 2 * msPerHour⟩] :=
  ⟨rfl,
   (create_reminders_default [] [5] [1] inpA true true (newAppointment inpA)
      rfl).1⟩

/-- C8 counterexample: re-cancelling an already cancelled appointment is not
field-preserving — a second cancel by a different caller at a later time
overwrites both `cancelledBy` and `cancelledAt`, so the claim that the
terminal state is returned unchanged fails on this input. -/
theorem cancel_restamps_metadata :
    (cancelAppointment (newAppointment inpA) "patient" 100).status =
      AppStatus.cancelled ∧
    (cancelAppointment (cancelAppointment (newAppointment inpA) "patient" 100)
        "doctor" 200).cancelledBy ≠
      (cancelAppointment (newAppointment inpA) "patient" 100).cancelledBy ∧
    (cancelAppointment (cancelAppointment (newAppointment inpA) "patient" 100)
        "doctor" 200).cancelledAt ≠
      (cancelAppointment (newAppointment inpA) "patient" 100).cancelledAt := by
  decide

/-- C8 amended: re-invoking cancel on a cancelled appointment always
succeeds and keeps status `cancelled` with all fields other than
`cancelledBy`/`cancelledAt` unchanged, but it restamps those two with the
new caller and time; it returns the identical state exactly when the new
caller and time coincide with the stored ones. -/
theorem cancel_idempotent_upto_stamp (a : Appointment) (role : String) (now : Int)
    (h : a.status = AppStatus.cancelled) :
    ((cancelAppointment a role now).status = AppStatus.cancelled ∧
     (cancelAppointment a role now).cancelledBy = some role ∧
     (cancelAppointment a role now).cancelledAt = some now) ∧
    ((cancelAppointment a role now).patient = a.patient ∧
     (cancelAppointment a role now).practitioner = a.practitioner ∧
     (cancelAppointment a role now).therapyType = a.therapyType ∧
     (cancelAppointment a role now).scheduledDate = a.scheduledDate ∧
     (cancelAppointment a role now).startTime = a.startTime ∧
     (cancelAppointment a role now).endTime = a.endTime ∧
     (cancelAppointment a role now).duration = a.duration ∧
     (cancelAppointment a role now).cost = a.cost ∧
     (cancelAppointment a role now).notes = a.notes ∧
     (cancelAppointment a role now).preSessionInstructions = a.preSessionInstructions ∧
     (cancelAppointment a role now).postSessionInstructions = a.postSessionInstructions ∧
     (cancelAppointment a role now).cancellationReason = a.cancellationReason ∧
     (cancelAppointment a role now).reminders = a.reminders) ∧
    (a.cancelledBy = some role ∧ a.cancelledAt = some now →
      cancelAppointment a role now = a) := by
  refine ⟨⟨rfl, rfl, rfl⟩,
    ⟨rfl, rfl, rfl, rfl, rfl, rfl, rfl, rfl, rfl, rfl, rfl, rfl, rfl⟩,
    fun hs => ?_⟩
  obtain ⟨hb, ht⟩ := hs
  cases a
  simp_all [cancelAppointment]

/-- C8 witness: cancelling again with the same caller and timestamp returns
the identical record. -/
theorem cancel_idempotent_upto_stamp_witness :
    (cancelAppointment (newAppointment inpA) "patient" 100).status =
      AppStatus.cancelled ∧
    cancelAppointment (cancelAppointment (newAppointment inpA) "patient" 100)
        "patient" 100 =
      cancelAppointment (newAppointment inpA) "patient" 100 :=
  ⟨by decide,
   ((cancel_idempotent_upto_stamp (cancelAppointment (newAppointment inpA) "patient" 100)
        "patient" 100 (by decide)).2.2) ⟨by decide, by decide⟩⟩

/-- C4 counterexample: the metadata-iff-cancelled invariant fails on a
reachable state — creating an appointment and then updating its status to
`confirmed` with a reason leaves status non-cancelled while
`cancellationReason` (and the other stamps) are set. -/
theorem cancellation_metadata_iff_fails :
    (runOps (newAppointment inpA)
        [AppOp.updStatus AppStatus.confirmed (some "patient requested") "patient" 1000]).status ≠
      AppStatus.cancelled ∧
    (runOps (newAppointment inpA)
        [AppOp.updStatus AppStatus.confirmed (some "patient requested") "patient" 1000]).cancellationReason =
      some "patient requested" := by
  decide

/-- C4 amended: the invariant that every reachable state actually satisfies —
`cancelledAt` and `cancelledBy` are always stamped together, and a
`cancellationReason` is only ever present when they are; the stamps are tied
to reason-bearing status updates and to cancel, not to the status value
being `cancelled`. -/
theorem cancellation_stamp_invariant (inp : CreateInput) (ops : List AppOp) :
    ((runOps (newAppointment inp) ops).cancelledAt.isSome =
      (runOps (newAppointment inp) ops).cancelledBy.isSome) ∧
    ((runOps (newAppointment inp) ops).cancellationReason = none ∨
      (runOps (newAppointment inp) ops).cancelledAt.isSome = true) := by
  suffices h : ∀ a : Appointment, a.cancelledAt.isSome = a.cancelledBy.isSome →
      (a.cancellationReason = none ∨ a.cancelledAt.isSome = true) →
      ((runOps a ops).cancelledAt.isSome = (runOps a ops).cancelledBy.isSome ∧
        ((runOps a ops).cancellationReason = none ∨
          (runOps a ops).cancelledAt.isSome = true)) by
    exact h (newAppointment inp) rfl (Or.inl rfl)
  induction ops with
  | nil => exact fun a h1 h2 => ⟨h1, h2⟩
  | cons op rest ih =>
    intro a h1 h2
    show ((runOps (applyOp a op) rest).cancelledAt.isSome =
        (runOps (applyOp a op) rest).cancelledBy.isSome) ∧ _
    apply ih
    · cases op with
      | updStatus s reason role now =>
        cases reason with
        | none => simpa [applyOp, updateStatus] using h1
        | some r =>
          by_cases hr : r = "" <;> simp [applyOp, updateStatus, hr, h1]
      | upd f => simpa [applyOp, updateAppointment] using h1
      | cancel role now => simp [applyOp, cancelAppointment]
    · cases op with
      | updStatus s reason role now =>
        cases reason with
        | none => simpa [applyOp, updateStatus] using h2
        | some r =>
          by_cases hr : r = "" <;> simp [applyOp, updateStatus, hr, h2]
      | upd f => simpa [applyOp, updateAppointment] using h2
      | cancel role now => simp [applyOp, cancelAppointment]

/-- C9 counterexample: a failing `notification.save()` does not roll the
appointment back, but it does fail the booking request — the handler answers
the outer-catch server error even though the appointment was stored, so
best-effort does not extend to persisting the Notification record. -/
theorem create_notifSave_failure_fails_request :
    (createAppointment [] [5] [1] inpA false true).2 =
      Except.error CreateError.serverError ∧
    (createAppointment [] [5] [1] inpA false true).1 = [newAppointment inpA] :=
  ⟨rfl, rfl⟩

/-- C9 amended: only the email/SMS dispatch is best-effort — the whole
request outcome is independent of the dispatch result; the stored
appointments never depend on any notification outcome (no rollback); and on
every booking that passes the patient, practitioner and conflict guards, a
failure persisting the in-app Notification record leaves the appointment
appended to the store yet makes the request answer the server error. -/
theorem create_notification_best_effort_parts
    (store : List Appointment) (patients practitioners : List Nat)
    (inp : CreateInput) (notifSaveOk sendOk sendOk2 : Bool) :
    (createAppointment store patients practitioners inp notifSaveOk sendOk =
      createAppointment store patients practitioners inp notifSaveOk sendOk2) ∧
    ((createAppointment store patients practitioners inp notifSaveOk sendOk).1 =
      (createAppointment store patients practitioners inp true sendOk).1) ∧
    (inp.patientId ∈ patients → inp.practitionerId ∈ practitioners →
      hasConflict store inp.practitionerId inp.scheduledDate inp.startTime = false →
      createAppointment store patients practitioners inp false sendOk =
        (store ++ [newAppointment inp], Except.error CreateError.serverError)) := by
  refine ⟨rfl, ?_, fun h1 h2 h3 => ?_⟩
  · by_cases h1 : inp.patientId ∈ patients <;>
      by_cases h2 : inp.practitionerId ∈ practitioners <;>
      by_cases h3 : hasConflict store inp.practitionerId inp.scheduledDate inp.startTime = true <;>
      cases notifSaveOk <;>
      simp [createAppointment, h1, h2, h3]
  · simp [createAppointment, h1, h2, h3]

/-- C9 witness: the concrete guarded booking `inpA` into an empty store with
a failing `notification.save()` stores the appointment and answers the
server error. -/
theorem create_notification_best_effort_parts_witness :
    (5 : Nat) ∈ [5] ∧ (1 : Nat) ∈ [1] ∧
    hasConflict [] inpA.practitionerId inpA.scheduledDate inpA.startTime = false ∧
    createAppointment [] [5] [1] inpA false true =
      ([newAppointment inpA], Except.error CreateError.serverError) :=
  ⟨by decide, by decide, rfl,
   (create_notification_best_effort_parts [] [5] [1] inpA true true true).2.2
     (by decide) (by decide) rfl⟩

/-- C10 counterexample: the deduct route is not fully described by the
balance comparison — the requested amount −5 does not exceed the stored
balance 10, yet the operation does not succeed with balance 15: the
validator (`amount` must be ≥ 1) rejects it and the balance is unchanged. -/
theorem deduct_fails_below_min_amount :
    ¬ (((-5 : ℚ)) > (some (10 : ℚ)).getD 0) ∧
    deduct (some 10) (-5) "refund" = (some 10, DeductResult.validationError) := by
  constructor
  · norm_num
  · rfl

/-- C10 amended: for requests passing validation (amount ≥ 1, nonempty
reason), deduct fails with the insufficient-balance response and an
unchanged balance exactly when the balance is below the amount, otherwise
succeeds with new balance = old − amount; a non-negative balance never
becomes negative; and every request failing validation is rejected with the
validation response and an unchanged balance. -/
theorem deduct_validated_spec (wb : Option ℚ) (amount : ℚ) (reason : String)
    (h1 : 1 ≤ amount) (h2 : reason ≠ "") :
    (wb.getD 0 < amount → deduct wb amount reason = (wb, DeductResult.insufficient)) ∧
    (amount ≤ wb.getD 0 →
      deduct wb amount reason =
        (some (wb.getD 0 - amount), DeductResult.ok (wb.getD 0 - amount))) ∧
    (0 ≤ wb.getD 0 → 0 ≤ (deduct wb amount reason).1.getD 0) ∧
    (∀ (amount2 : ℚ) (reason2 : String), ¬(1 ≤ amount2 ∧ reason2 ≠ "") →
      deduct wb amount2 reason2 = (wb, DeductResult.validationError)) := by
  have hv : deduct wb amount reason =
      if wb.getD 0 < amount then (wb, DeductResult.insufficient)
      else (some (wb.getD 0 - amount), DeductResult.ok (wb.getD 0 - amount)) := by
    simp only [deduct, if_pos (And.intro h1 h2)]
  refine ⟨fun hlt => ?_, fun hle => ?_, fun h0 => ?_, fun amount2 reason2 hbad => ?_⟩
  · rw [hv, if_pos hlt]
  · rw [hv, if_neg (not_lt.mpr hle)]
  · rw [hv]
    by_cases hlt : wb.getD 0 < amount
    · rw [if_pos hlt]; exact h0
    · rw [if_neg hlt]
      have := not_lt.mp hlt
      simpa using by linarith
  · simp only [deduct, if_neg hbad]

/-- C10 witness: a validated deduction of 4 from a balance of 10 succeeds
and leaves 6. -/
theorem deduct_validated_spec_witness :
    (1 : ℚ) ≤ 4 ∧ ("session" ≠ "") ∧
    deduct (some 10) 4 "session" = (some 6, DeductResult.ok 6) := by
  refine ⟨by norm_num, by decide, ?_⟩
  have h := (deduct_validated_spec (some 10) 4 "session" (by norm_num)
      (by decide)).2.1 (by norm_num)
  norm_num at h
  exact h

end AyurSutra
